import Mathlib

/-!
Verification of the Google Drive image scraper plugin core
(`code.ts`): folder-URL parsing, image filtering, scan orchestration,
and the three import variants (Figma grid, FigJam cards, Slides).

The TypeScript source is shallowly embedded: network transport and the
canvas API are modelled as explicit oracles (`DriveEnv`, `ImportEnv`),
exceptions as `Except String`, and the canvas sink as a record of the
operations the code performed.  Numeric coordinates are modelled as
rationals.
-/

set_option linter.unusedVariables false

-- ============================================================
-- Data model (from the interface definitions in code.ts)
-- ============================================================

/-- A file from Google Drive with metadata needed for import
(`DriveFile` in code.ts). -/
structure DriveFile where
  id : String
  name : String
  mimeType : String
  size : Option String
  thumbnailLink : Option String
  webViewLink : Option String
  downloadUrl : Option String
  createdTime : Option String
  modifiedTime : Option String
deriving DecidableEq

/-- A raw entry of the listing API response (`data.files` element),
before normalization into `DriveFile`. -/
structure RawDriveFile where
  id : String
  name : String
  mimeType : String
  size : Option String
  thumbnailLink : Option String
  webViewLink : Option String
  createdTime : Option String
  modifiedTime : Option String
deriving DecidableEq

/-- API response for file listing (`DriveApiResponse` in code.ts). -/
structure DriveApiResponse where
  files : List DriveFile
  nextPageToken : Option String
  incompleteSearch : Option Bool
deriving DecidableEq

/-- Scan result (`ScanResult` in code.ts). -/
structure ScanResult where
  success : Bool
  images : List DriveFile
  error : Option String
  totalFound : Nat
  folderName : Option String
deriving DecidableEq

-- ============================================================
-- Constants (from code.ts)
-- ============================================================

/-- `ERROR_MESSAGES.INVALID_URL` in code.ts. -/
def ERROR_MESSAGES_INVALID_URL : String :=
  "Invalid Google Drive folder URL. Please check the URL and try again."

/-- `ERROR_MESSAGES.FOLDER_NOT_FOUND` in code.ts. -/
def ERROR_MESSAGES_FOLDER_NOT_FOUND : String :=
  "Folder not found or not accessible. Make sure the folder is publicly shared."

/-- `FILE_TYPE_MAPPINGS` in code.ts: extension tag to known MIME types. -/
def FILE_TYPE_MAPPINGS : List (String × List String) :=
  [("jpg", ["image/jpeg", "image/jpg"]),
   ("jpeg", ["image/jpeg", "image/jpg"]),
   ("png", ["image/png"]),
   ("gif", ["image/gif"]),
   ("svg", ["image/svg+xml", "text/xml"]),
   ("webp", ["image/webp"]),
   ("bmp", ["image/bmp", "image/x-ms-bmp"]),
   ("tiff", ["image/tiff", "image/tif"]),
   ("ico", ["image/x-icon", "image/vnd.microsoft.icon"])]

-- ============================================================
-- extractFolderId (code.ts lines 438-459)
-- ============================================================

/-- The character class `[a-zA-Z0-9-_]` of the URL patterns. -/
def isIdChar (c : Char) : Bool :=
  c.isAlpha || c.isDigit || c = '-' || c = '_'

/-- A pattern literal is a sequence of character alternatives: each
position must match one of the listed characters.  All four regexes in
code.ts have the form "literal, then `[a-zA-Z0-9-_]+` captured". -/
def matchLit : List (List Char) → List Char → Option (List Char)
  | [], rest => some rest
  | _ :: _, [] => none
  | cls :: ls, c :: rest => if cls.contains c then matchLit ls rest else none

/-- Try to match a pattern (literal + nonempty captured id run) at the
start of `cs`; greedy capture, as a regex `+` with nothing after it. -/
def matchPatAt (pat : List (List Char)) (cs : List Char) : Option String :=
  match matchLit pat cs with
  | none => none
  | some rest =>
    let run := rest.takeWhile isIdChar
    if run.isEmpty then none else some (String.mk run)

/-- Leftmost match of a pattern in a string, as `String.prototype.match`
finds the first position where the regex matches. -/
def firstMatch (pat : List (List Char)) : List Char → Option String
  | [] => none
  | c :: rest =>
    match matchPatAt pat (c :: rest) with
    | some s => some s
    | none => firstMatch pat rest

/-- Lift a plain string literal to a pattern. -/
def litPattern (s : String) : List (List Char) :=
  s.data.map (fun c => [c])

/-- The four URL patterns of `extractFolderId`, in source order:
`/\/folders\/([a-zA-Z0-9-_]+)/`, `/[?&]id=([a-zA-Z0-9-_]+)/`,
`/\/drive\/folders\/([a-zA-Z0-9-_]+)/`, `/\/open\?id=([a-zA-Z0-9-_]+)/`. -/
def DRIVE_URL_PATTERNS : List (List (List Char)) :=
  [litPattern "/folders/",
   [['?', '&']] ++ litPattern "id=",
   litPattern "/drive/folders/",
   litPattern "/open?id="]

/-- The pattern loop of `extractFolderId`: first pattern with a match wins. -/
def extractFolderIdAux : List (List (List Char)) → List Char → Option String
  | [], _ => none
  | p :: ps, cs =>
    match firstMatch p cs with
    | some s => some s
    | none => extractFolderIdAux ps cs

/-- `extractFolderId` (code.ts 438-459): extract folder ID from various
Google Drive URL formats; `none` models the `null` return. -/
def extractFolderId (url : String) : Option String :=
  extractFolderIdAux DRIVE_URL_PATTERNS url.data

-- ============================================================
-- filterImageFiles (code.ts lines 464-492)
-- ============================================================

/-- ASCII lowercasing, as `String.prototype.toLowerCase` on the ASCII
range (character-by-character `Char.toLower`). -/
def strToLower (s : String) : String :=
  String.mk (s.data.map Char.toLower)

/-- `String.prototype.endsWith`: suffix test on the character list. -/
def strEndsWith (s suffix : String) : Bool :=
  suffix.data.isSuffixOf s.data

/-- The filter predicate body of `filterImageFiles`: the first loop
returns true on a MIME-type match for some allowed type, the second
loop on a file-extension match for some allowed type. -/
def keepFile (allowedTypes : List String) (file : DriveFile) : Bool :=
  let fileName := strToLower file.name
  let mimeType := strToLower file.mimeType
  (allowedTypes.any fun t =>
    match FILE_TYPE_MAPPINGS.lookup (strToLower t) with
    | some validMimeTypes => validMimeTypes.contains mimeType
    | none => false) ||
  (allowedTypes.any fun t => strEndsWith fileName ("." ++ strToLower t))

/-- `filterImageFiles` (code.ts 464-492): filter files by type. -/
def filterImageFiles (files : List DriveFile) (allowedTypes : List String) :
    List DriveFile :=
  files.filter (keepFile allowedTypes)

/-- Specification-side predicate, written from the claim text: a single
tag keeps a record when the record's MIME type (case-insensitively) is
in that tag's known MIME-type set, or the record's display name ends
with "." followed by the tag (case-insensitively). -/
def specKeep (tag : String) (file : DriveFile) : Bool :=
  ((FILE_TYPE_MAPPINGS.lookup (strToLower tag)).getD []).contains (strToLower file.mimeType) ||
  strEndsWith (strToLower file.name) ("." ++ strToLower tag)

-- ============================================================
-- Transport oracle and the Drive API service functions
-- (code.ts lines 498-611)
-- ============================================================

/-- A transport-level response for the listing request: HTTP status
plus the parsed JSON body fields the code reads.  `response.ok` is
derived from the status as in the fetch API (200-299). -/
structure ListResponse where
  status : Nat
  statusText : String
  files : List RawDriveFile
  nextPageToken : Option String
  incompleteSearch : Option Bool
deriving DecidableEq

/-- A transport-level response for the folder-info request. -/
structure InfoResponse where
  status : Nat
  statusText : String
  id : String
  name : String
  mimeType : String
  webViewLink : Option String
  createdTime : Option String
  modifiedTime : Option String
deriving DecidableEq

/-- The network oracle for a scan: the behavior of `fetch` on the
listing URL and on the folder-info URL, keyed by folder id (the URL is
a deterministic function of the id).  `Except.error` models a
rejected/thrown fetch. -/
structure DriveEnv where
  fetchList : String → Except String ListResponse
  fetchInfo : String → Except String InfoResponse

/-- `response.ok` of the fetch API: status in the range 200-299. -/
def respOk (status : Nat) : Bool :=
  decide (200 ≤ status ∧ status ≤ 299)

/-- The normalization of a raw listing entry into a `DriveFile`
(code.ts 535-545): the download URL is synthesized from the id. -/
def normalizeRawFile (f : RawDriveFile) : DriveFile :=
  { id := f.id
    name := f.name
    mimeType := f.mimeType
    size := f.size
    thumbnailLink := f.thumbnailLink
    webViewLink := f.webViewLink
    downloadUrl := some ("https://drive.google.com/uc?export=download&id=" ++ f.id)
    createdTime := f.createdTime
    modifiedTime := f.modifiedTime }

/-- `scanGoogleDriveFolder` (code.ts 498-556): one page-listing fetch.
On a non-ok status 401/403 it throws `FOLDER_NOT_FOUND`; on any other
non-ok status it throws a transport error with status and reason; the
surrounding catch only logs and rethrows. -/
def scanGoogleDriveFolder (env : DriveEnv) (folderId : String) :
    Except String DriveApiResponse :=
  match env.fetchList folderId with
  | .error e => .error e
  | .ok resp =>
    if respOk resp.status then
      .ok { files := resp.files.map normalizeRawFile
            nextPageToken := resp.nextPageToken
            incompleteSearch := resp.incompleteSearch }
    else if resp.status = 401 ∨ resp.status = 403 then
      .error ERROR_MESSAGES_FOLDER_NOT_FOUND
    else
      .error ("API request failed: " ++ toString resp.status ++ " " ++ resp.statusText)

/-- `getFolderInfo` (code.ts 587-611): best-effort metadata fetch; any
fetch failure or non-ok status yields `null` (here `none`), never an
exception. -/
def getFolderInfo (env : DriveEnv) (folderId : String) : Option DriveFile :=
  match env.fetchInfo folderId with
  | .error _ => none
  | .ok resp =>
    if respOk resp.status then
      some { id := resp.id
             name := resp.name
             mimeType := resp.mimeType
             size := none
             thumbnailLink := none
             webViewLink := resp.webViewLink
             downloadUrl := none
             createdTime := resp.createdTime
             modifiedTime := resp.modifiedTime }
    else none

-- ============================================================
-- scanFolder (code.ts lines 620-691)
-- ============================================================

/-- `scanFolder` (code.ts 620-691).  The stages: extract the folder id
(invalid-URL failure on `none`), best-effort folder info, single-page
listing, image filtering, truncation to `maxImages`.  The outer
try/catch converts any thrown error (modelled by `Except.error` from
the listing stage) into a failure `ScanResult` carrying its message. -/
def scanFolder (env : DriveEnv) (folderUrl : String) (allowedTypes : List String)
    (maxImages : Nat) : ScanResult :=
  match extractFolderId folderUrl with
  | none =>
    { success := false
      images := []
      error := some ERROR_MESSAGES_INVALID_URL
      totalFound := 0
      folderName := none }
  | some folderId =>
    match scanGoogleDriveFolder env folderId with
    | .error e =>
      { success := false
        images := []
        error := some e
        totalFound := 0
        folderName := none }
    | .ok scanResult =>
      { success := true
        images := (filterImageFiles scanResult.files allowedTypes).take maxImages
        error := none
        totalFound := (filterImageFiles scanResult.files allowedTypes).length
        folderName := (getFolderInfo env folderId).map (fun f => f.name) }

-- ============================================================
-- Canvas sink model and download (code.ts lines 561-582, 696-970)
-- ============================================================

/-- Image scale modes used by the code (`"FIT"` / `"FILL"`). -/
inductive ScaleMode where
  | FIT
  | FILL
deriving DecidableEq

/-- The data of a created image rectangle: source record, image hash
(abstract payload handle), position, size, scale mode, node name. -/
structure RectData where
  source : DriveFile
  imageHash : Nat
  x : ℚ
  y : ℚ
  w : ℚ
  h : ℚ
  scaleMode : ScaleMode
  name : String
deriving DecidableEq

/-- A canvas node created by the plugin.  A component always wraps the
rectangle built just before it; a slide holds at most the one centered
rectangle appended to it. -/
inductive Node where
  | rect (r : RectData)
  | component (child : RectData) (x : ℚ) (y : ℚ) (name : String)
  | sticky (source : DriveFile) (x : ℚ) (y : ℚ) (text : String)
  | slide (name : String) (content : Option RectData)
deriving DecidableEq

/-- The source record a node was created for (the slide case reports
the record of its appended image, if any). -/
def nodeSource : Node → Option DriveFile
  | .rect r => some r.source
  | .component child _ _ _ => some child.source
  | .sticky source _ _ _ => some source
  | .slide _ content => content.map (fun r => r.source)

/-- The position a node was placed at. -/
def nodePos : Node → ℚ × ℚ
  | .rect r => (r.x, r.y)
  | .component _ x y _ => (x, y)
  | .sticky _ x y _ => (x, y)
  | .slide _ _ => (0, 0)

/-- Import result (`ImportResult` in code.ts). -/
structure ImportResult where
  success : Bool
  importedCount : Nat
  error : Option String
  nodes : List Node
deriving DecidableEq

/-- Import options (`ImportOptions` in code.ts), after merging with the
defaults. -/
structure ImportOptions where
  createComponents : Bool
  imageSize : ℚ
  spacing : ℚ
  imagesPerRow : Nat
  preserveAspectRatio : Bool
deriving DecidableEq

/-- `DEFAULT_IMPORT_SETTINGS` of code.ts (the layout-relevant fields). -/
def DEFAULT_IMPORT_SETTINGS : ImportOptions :=
  { createComponents := false
    imageSize := 200
    spacing := 20
    imagesPerRow := 3
    preserveAspectRatio := true }

/-- `DEFAULT_IMPORT_SETTINGS.maxImages` of code.ts, the default of
`scanFolder`'s `maxImages` parameter. -/
def DEFAULT_MAX_IMAGES : Nat := 50

/-- The environment of an import: the behavior of `fetch` on a download
URL (abstract payload as a `Nat` handle on success), and the dimensions
the sink gives a newly created slide. -/
structure ImportEnv where
  fetchBytes : String → Except String Nat
  slideWidth : ℚ
  slideHeight : ℚ

/-- `downloadFile` (code.ts 561-582): throws on a missing download URL,
otherwise a single fetch whose failure is rethrown. -/
def downloadFile (env : ImportEnv) (file : DriveFile) : Except String Nat :=
  match file.downloadUrl with
  | none => .error ("No download URL available for " ++ file.name)
  | some url => env.fetchBytes url

/-- Whether `downloadFile` succeeds for a record. -/
def downloadOk (env : ImportEnv) (file : DriveFile) : Bool :=
  match downloadFile env file with
  | .ok _ => true
  | .error _ => false

/-- What the code did to the document: nodes appended to the current
page (for Slides: the slides created in the document), the final
selection if the selection operation was invoked, the node list passed
to scroll-and-zoom-into-view if invoked, and whether the slides grid
view was set. -/
structure Canvas where
  children : List Node
  selection : Option (List Node)
  scrolledTo : Option (List Node)
  slidesViewGrid : Bool
deriving DecidableEq

-- ============================================================
-- importToFigma (code.ts lines 696-794)
-- ============================================================

/-- Loop state of the import loops: created nodes and position cursor. -/
structure LoopState where
  nodes : List Node
  currentX : ℚ
  currentY : ℚ
deriving DecidableEq

/-- The node placed for one successfully downloaded record in the grid
import: a rectangle with an image fill at the cursor, wrapped in a
component when `createComponents` is set. -/
def mkGridNode (s : ImportOptions) (image : DriveFile) (data : Nat)
    (x y : ℚ) : Node :=
  let r : RectData :=
    { source := image
      imageHash := data
      x := x
      y := y
      w := s.imageSize
      h := s.imageSize
      scaleMode := if s.preserveAspectRatio then .FIT else .FILL
      name := image.name }
  if s.createComponents then Node.component r x y image.name else Node.rect r

/-- One iteration of the `importToFigma` loop (code.ts 711-768) at loop
index `i`.  A per-item failure leaves the state unchanged (the catch
only logs and continues); on success the node is appended and the
cursor advances, wrapping to a new row when `(i+1) % imagesPerRow = 0`. -/
def figmaStep (env : ImportEnv) (s : ImportOptions) (i : Nat)
    (image : DriveFile) (st : LoopState) : LoopState :=
  match downloadFile env image with
  | .error _ => st
  | .ok data =>
    let nodes := st.nodes ++ [mkGridNode s image data st.currentX st.currentY]
    if (i + 1) % s.imagesPerRow = 0 then
      { nodes := nodes
        currentX := 0
        currentY := st.currentY + s.imageSize + s.spacing }
    else
      { nodes := nodes
        currentX := st.currentX + s.imageSize + s.spacing
        currentY := st.currentY }

/-- The `importToFigma` loop over the records, carrying the loop index. -/
def figmaLoop (env : ImportEnv) (s : ImportOptions) :
    Nat → List DriveFile → LoopState → LoopState
  | _, [], st => st
  | i, image :: rest, st =>
    figmaLoop env s (i + 1) rest (figmaStep env s i image st)

/-- `importToFigma` (code.ts 696-794).  After the loop, if any nodes
were created they are selected and scrolled into view; the result is a
success with `importedCount = nodes.length`. -/
def importToFigma (env : ImportEnv) (images : List DriveFile)
    (options : ImportOptions) : ImportResult × Canvas :=
  let st := figmaLoop env options 0 images { nodes := [], currentX := 0, currentY := 0 }
  ({ success := true
     importedCount := st.nodes.length
     error := none
     nodes := st.nodes },
   { children := st.nodes
     selection := if st.nodes.length > 0 then some st.nodes else none
     scrolledTo := if st.nodes.length > 0 then some st.nodes else none
     slidesViewGrid := false })

-- ============================================================
-- importToFigJam (code.ts lines 799-885)
-- ============================================================

/-- One iteration of the `importToFigJam` loop (code.ts 813-860): on
success a sticky note carrying the record's name and a 150x150 image
rectangle 170px above it are appended (in that order); the cursor
advances by 200 and wraps to a new row (y += 250) once x exceeds 1000. -/
def figjamStep (env : ImportEnv) (image : DriveFile) (st : LoopState) : LoopState :=
  match downloadFile env image with
  | .error _ => st
  | .ok data =>
    let nodes := st.nodes ++
      [Node.sticky image st.currentX st.currentY image.name,
       Node.rect { source := image
                   imageHash := data
                   x := st.currentX
                   y := st.currentY - 170
                   w := 150
                   h := 150
                   scaleMode := .FIT
                   name := image.name ++ " (Image)" }]
    if st.currentX + 200 > 1000 then
      { nodes := nodes, currentX := 0, currentY := st.currentY + 250 }
    else
      { nodes := nodes, currentX := st.currentX + 200, currentY := st.currentY }

/-- The `importToFigJam` loop over the records. -/
def figjamLoop (env : ImportEnv) : List DriveFile → LoopState → LoopState
  | [], st => st
  | image :: rest, st => figjamLoop env rest (figjamStep env image st)

/-- `importToFigJam` (code.ts 799-885): `importedCount` is
`nodes.length / 2` (a sticky/rectangle pair per imported record). -/
def importToFigJam (env : ImportEnv) (images : List DriveFile) :
    ImportResult × Canvas :=
  let st := figjamLoop env images { nodes := [], currentX := 0, currentY := 0 }
  ({ success := true
     importedCount := st.nodes.length / 2
     error := none
     nodes := st.nodes },
   { children := st.nodes
     selection := if st.nodes.length > 0 then some st.nodes else none
     scrolledTo := if st.nodes.length > 0 then some st.nodes else none
     slidesViewGrid := false })

-- ============================================================
-- importToSlides (code.ts lines 890-970)
-- ============================================================

/-- The centered image rectangle of a slide (code.ts 919-938): the
slide dimensions default to 1920x1080 when the sink reports 0, the
image is capped at 800x600 and at 4/5 of the slide dimensions (the
source's `0.8` factor, idealized as the exact rational), and centered. -/
def slideRect (env : ImportEnv) (image : DriveFile) (data : Nat) : RectData :=
  let slideWidth := if env.slideWidth = 0 then 1920 else env.slideWidth
  let slideHeight := if env.slideHeight = 0 then 1080 else env.slideHeight
  let imageWidth := min 800 (slideWidth * (4 / 5))
  let imageHeight := min 600 (slideHeight * (4 / 5))
  { source := image
    imageHash := data
    x := (slideWidth - imageWidth) / 2
    y := (slideHeight - imageHeight) / 2
    w := imageWidth
    h := imageHeight
    scaleMode := .FIT
    name := image.name }

/-- Loop state of `importToSlides`: the successfully populated slides
(the result accumulator `slides`) and every slide created in the
document, since `createSlide` happens before the download and a failed
record leaves its empty named slide behind. -/
structure SlidesState where
  slides : List Node
  created : List Node
deriving DecidableEq

/-- One iteration of the `importToSlides` loop (code.ts 901-945). -/
def slidesStep (env : ImportEnv) (image : DriveFile) (st : SlidesState) :
    SlidesState :=
  match downloadFile env image with
  | .error _ =>
    { slides := st.slides, created := st.created ++ [Node.slide image.name none] }
  | .ok data =>
    let s := Node.slide image.name (some (slideRect env image data))
    { slides := st.slides ++ [s], created := st.created ++ [s] }

/-- The `importToSlides` loop over the records. -/
def slidesLoop (env : ImportEnv) : List DriveFile → SlidesState → SlidesState
  | [], st => st
  | image :: rest, st => slidesLoop env rest (slidesStep env image st)

/-- `importToSlides` (code.ts 890-970): if any slides were populated
they are selected and the slides grid view is set (no scroll call);
`importedCount` is the number of populated slides. -/
def importToSlides (env : ImportEnv) (images : List DriveFile) :
    ImportResult × Canvas :=
  let st := slidesLoop env images { slides := [], created := [] }
  ({ success := true
     importedCount := st.slides.length
     error := none
     nodes := st.slides },
   { children := st.created
     selection := if st.slides.length > 0 then some st.slides else none
     scrolledTo := none
     slidesViewGrid := st.slides.length > 0 })

-- ============================================================
-- Concrete test fixtures for witnesses and counterexamples
-- ============================================================

/-- A concrete PNG record with download URL `u<n>`. -/
def testFile (n : Nat) : DriveFile :=
  { id := "f" ++ toString n
    name := "img" ++ toString n ++ ".png"
    mimeType := "image/png"
    size := none
    thumbnailLink := none
    webViewLink := none
    downloadUrl := some ("u" ++ toString n)
    createdTime := none
    modifiedTime := none }

/-- An import environment in which exactly the download URL `bad`
fails; slide dimensions are the 1920x1080 defaults. -/
def envImport (bad : String) : ImportEnv :=
  { fetchBytes := fun u =>
      if u = bad then .error "Download failed: 404 Not Found" else .ok 7
    slideWidth := 1920
    slideHeight := 1080 }

/-- An import environment in which every download succeeds. -/
def envImportOk : ImportEnv :=
  { fetchBytes := fun _ => .ok 7
    slideWidth := 1920
    slideHeight := 1080 }

/-- Record matching tag "png" by MIME type only (no `.png` suffix). -/
def mimeOnlyFile : DriveFile :=
  { id := "m1", name := "holiday", mimeType := "IMAGE/PNG", size := none
    thumbnailLink := none, webViewLink := none, downloadUrl := none
    createdTime := none, modifiedTime := none }

/-- Record matching tag "png" by file extension only (foreign MIME). -/
def extOnlyFile : DriveFile :=
  { id := "m2", name := "shot.PNG", mimeType := "application/octet-stream", size := none
    thumbnailLink := none, webViewLink := none, downloadUrl := none
    createdTime := none, modifiedTime := none }

/-- Record whose extension matches a tag that has no MIME mapping. -/
def unknownTagFile : DriveFile :=
  { id := "m3", name := "a.heic", mimeType := "application/foo", size := none
    thumbnailLink := none, webViewLink := none, downloadUrl := none
    createdTime := none, modifiedTime := none }

/-- A concrete raw listing entry (PNG). -/
def rawPng (n : Nat) : RawDriveFile :=
  { id := "f" ++ toString n
    name := "img" ++ toString n ++ ".png"
    mimeType := "image/png"
    size := none
    thumbnailLink := none
    webViewLink := none
    createdTime := none
    modifiedTime := none }

/-- A successful listing response: two PNG files and one text file. -/
def listRespA : ListResponse :=
  { status := 200
    statusText := "OK"
    files := [rawPng 1, rawPng 2,
              { rawPng 3 with name := "notes.txt", mimeType := "text/plain" }]
    nextPageToken := none
    incompleteSearch := none }

/-- Drive environment whose listing succeeds with `listRespA` and whose
folder-info fetch is rejected. -/
def envA : DriveEnv :=
  { fetchList := fun _ => .ok listRespA
    fetchInfo := fun _ => .error "net down" }

/-- The normalized API response produced from `listRespA`. -/
def respA : DriveApiResponse :=
  { files := listRespA.files.map normalizeRawFile
    nextPageToken := none
    incompleteSearch := none }

/-- Drive environment whose listing fetch throws. -/
def envBoom : DriveEnv :=
  { fetchList := fun _ => .error "boom"
    fetchInfo := fun _ => .error "boom" }

/-- A 403 authorization-failure listing response. -/
def respAuth : ListResponse :=
  { status := 403
    statusText := "Forbidden"
    files := []
    nextPageToken := none
    incompleteSearch := none }

/-- Drive environment whose listing returns HTTP 403. -/
def envAuth : DriveEnv :=
  { fetchList := fun _ => .ok respAuth
    fetchInfo := fun _ => .error "x" }

-- ============================================================
-- Helper lemmas
-- ============================================================

theorem extractFolderIdAux_eq_findSome? (ps : List (List (List Char))) (cs : List Char) :
    extractFolderIdAux ps cs = ps.findSome? (fun p => firstMatch p cs) := by
  induction ps with
  | nil => rfl
  | cons p ps ih =>
    rw [List.findSome?_cons]
    unfold extractFolderIdAux
    cases h : firstMatch p cs <;> simp [h, ih]

theorem list_any_or {α : Type} (l : List α) (p q : α → Bool) :
    (l.any fun x => p x || q x) = (l.any p || l.any q) := by
  induction l with
  | nil => rfl
  | cons a l ih =>
    simp only [List.any_cons, ih]
    cases p a <;> cases q a <;> cases l.any p <;> cases l.any q <;> rfl

theorem lookup_contains_eq (t m : String) :
    (match FILE_TYPE_MAPPINGS.lookup (strToLower t) with
     | some validMimeTypes => validMimeTypes.contains m
     | none => false) =
    ((FILE_TYPE_MAPPINGS.lookup (strToLower t)).getD []).contains m := by
  cases h : FILE_TYPE_MAPPINGS.lookup (strToLower t) <;> simp [h]

theorem keepFile_eq_any_specKeep (tags : List String) (f : DriveFile) :
    keepFile tags f = tags.any (fun t => specKeep t f) := by
  unfold keepFile specKeep
  simp only [lookup_contains_eq]
  exact (list_any_or tags _ _).symm

-- ============================================================
-- Claim theorems
-- ============================================================

/-- Claim C3: for every URL, the folder-reference parser returns the
capture of the first matching pattern in the fixed pattern-list order
(`/folders/<id>`, `[?&]id=<id>`, `/drive/folders/<id>`, `/open?id=<id>`),
and returns `none` exactly when no pattern matches anywhere in the URL
(it is a total function, so it never throws); each of the four
supported shapes extracts exactly the embedded identifier, and an
unparsable URL yields `none`. -/
theorem extractFolderId_spec :
    (∀ url : String,
      extractFolderId url = DRIVE_URL_PATTERNS.findSome? (fun p => firstMatch p url.data)) ∧
    (∀ url : String,
      extractFolderId url = none ↔ ∀ p ∈ DRIVE_URL_PATTERNS, firstMatch p url.data = none) ∧
    extractFolderId "https://drive.google.com/folders/1A2b-c_3" = some "1A2b-c_3" ∧
    extractFolderId "https://example.com/view?x=1&id=XYZ9" = some "XYZ9" ∧
    extractFolderId "https://drive.google.com/drive/folders/1ABC" = some "1ABC" ∧
    extractFolderId "https://drive.google.com/open?id=1XYZ" = some "1XYZ" ∧
    extractFolderId "https://x.com/folders/AAA?id=BBB" = some "AAA" ∧
    extractFolderId "not a url" = none := by
  refine ⟨fun url => extractFolderIdAux_eq_findSome? _ _, fun url => ?_,
    by decide, by decide, by decide, by decide, by decide, by decide⟩
  rw [extractFolderId, extractFolderIdAux_eq_findSome?]
  exact List.findSome?_eq_none_iff

/-- Claim C6: the image filter keeps a record exactly when some allowed
tag matches it by MIME type (case-insensitive membership in the tag's
known MIME-type set) or by file extension (name ends in `.` plus the
tag, case-insensitively); each check alone suffices (a MIME-only match
and an extension-only match are both kept), tags without a MIME mapping
still participate in the extension check, and the output preserves the
input order (it is a sublist of the input). -/
theorem filterImageFiles_spec :
    (∀ (files : List DriveFile) (tags : List String),
      filterImageFiles files tags = files.filter (fun f => tags.any (fun t => specKeep t f))) ∧
    (∀ (files : List DriveFile) (tags : List String) (f : DriveFile),
      f ∈ filterImageFiles files tags ↔ f ∈ files ∧ ∃ t, t ∈ tags ∧ specKeep t f = true) ∧
    (∀ (files : List DriveFile) (tags : List String),
      (filterImageFiles files tags).Sublist files) ∧
    filterImageFiles [mimeOnlyFile] ["png"] = [mimeOnlyFile] ∧
    filterImageFiles [extOnlyFile] ["png"] = [extOnlyFile] ∧
    filterImageFiles [unknownTagFile] ["heic"] = [unknownTagFile] ∧
    FILE_TYPE_MAPPINGS.lookup "heic" = none := by
  have heq : ∀ (files : List DriveFile) (tags : List String),
      filterImageFiles files tags = files.filter (fun f => tags.any (fun t => specKeep t f)) := by
    intro files tags
    unfold filterImageFiles
    congr 1
    funext f
    exact keepFile_eq_any_specKeep tags f
  refine ⟨heq, fun files tags f => ?_, fun files tags => List.filter_sublist files,
    by decide, by decide, by decide, by decide⟩
  rw [heq, List.mem_filter, List.any_eq_true]

/-- Claim C8: when no folder identifier can be extracted from the URL,
the scan returns immediately with `success = false`, the invalid-URL
message, an empty image list and `totalFound = 0`; the result does not
depend on the network environment at all (no remote call is made). -/
theorem scanFolder_invalid_url (env env2 : DriveEnv) (url : String)
    (tags : List String) (maxImages : Nat)
    (h : extractFolderId url = none) :
    scanFolder env url tags maxImages =
      { success := false
        images := []
        error := some ERROR_MESSAGES_INVALID_URL
        totalFound := 0
        folderName := none } ∧
    scanFolder env url tags maxImages = scanFolder env2 url tags maxImages := by
  constructor <;> simp [scanFolder, h]

/-- Witness for C8 at the unparsable URL `"not a url"`. -/
theorem scanFolder_invalid_url_witness :
    extractFolderId "not a url" = none ∧
    (scanFolder envA "not a url" ["png"] 10 =
      { success := false
        images := []
        error := some ERROR_MESSAGES_INVALID_URL
        totalFound := 0
        folderName := none } ∧
    scanFolder envA "not a url" ["png"] 10 = scanFolder envBoom "not a url" ["png"] 10) :=
  ⟨by decide, scanFolder_invalid_url envA envBoom "not a url" ["png"] 10 (by decide)⟩

/-- Claim C4: when the listing request resolves with an authorization
failure status (401 or 403), the scan resolves to a failure outcome
whose error is the folder-not-found / not-publicly-shared message — the
thrown `FOLDER_NOT_FOUND` error is caught at the orchestrator boundary,
so no fault reaches the caller (the result is a total value). -/
theorem scanFolder_auth_failure (env : DriveEnv) (url : String)
    (tags : List String) (maxImages : Nat) (fid : String) (resp : ListResponse)
    (h1 : extractFolderId url = some fid)
    (h2 : env.fetchList fid = .ok resp)
    (h3 : resp.status = 401 ∨ resp.status = 403) :
    scanFolder env url tags maxImages =
      { success := false
        images := []
        error := some ERROR_MESSAGES_FOLDER_NOT_FOUND
        totalFound := 0
        folderName := none } := by
  have hscan : scanGoogleDriveFolder env fid = .error ERROR_MESSAGES_FOLDER_NOT_FOUND := by
    rcases h3 with h | h <;> simp [scanGoogleDriveFolder, h2, h, respOk]
  simp [scanFolder, h1, hscan]

/-- Witness for C4: a 403 listing response yields the folder-not-found
failure outcome. -/
theorem scanFolder_auth_failure_witness :
    extractFolderId "https://drive.google.com/drive/folders/1ABC" = some "1ABC" ∧
    envAuth.fetchList "1ABC" = .ok respAuth ∧
    (respAuth.status = 401 ∨ respAuth.status = 403) ∧
    scanFolder envAuth "https://drive.google.com/drive/folders/1ABC" ["png"] 10 =
      { success := false
        images := []
        error := some ERROR_MESSAGES_FOLDER_NOT_FOUND
        totalFound := 0
        folderName := none } :=
  ⟨by decide, rfl, Or.inr rfl,
    scanFolder_auth_failure envAuth "https://drive.google.com/drive/folders/1ABC"
      ["png"] 10 "1ABC" respAuth (by decide) rfl (Or.inr rfl)⟩

/-- Claim C5: the scan always resolves to a well-formed outcome — on
success the error is absent, on failure an error message is present and
the images/totalFound are empty/zero — and any exception thrown by the
listing stage (the only stage of the model that can throw; folder-info
failures are swallowed inside `getFolderInfo`) is caught and converted
into a failure outcome carrying exactly that exception's message.  As a
total Lean function, `scanFolder` propagates no fault to the caller. -/
theorem scanFolder_exception_boundary :
    (∀ (env : DriveEnv) (url : String) (tags : List String) (maxImages : Nat),
      ((scanFolder env url tags maxImages).success = true →
        (scanFolder env url tags maxImages).error = none) ∧
      ((scanFolder env url tags maxImages).success = false →
        (scanFolder env url tags maxImages).error.isSome = true ∧
        (scanFolder env url tags maxImages).images = [] ∧
        (scanFolder env url tags maxImages).totalFound = 0)) ∧
    (∀ (env : DriveEnv) (url : String) (tags : List String) (maxImages : Nat)
        (fid : String) (e : String),
      extractFolderId url = some fid →
      scanGoogleDriveFolder env fid = .error e →
      scanFolder env url tags maxImages =
        { success := false
          images := []
          error := some e
          totalFound := 0
          folderName := none }) := by
  constructor
  · intro env url tags maxImages
    cases hid : extractFolderId url with
    | none => constructor <;> simp [scanFolder, hid]
    | some fid =>
      cases hscan : scanGoogleDriveFolder env fid with
      | error e => constructor <;> simp [scanFolder, hid, hscan]
      | ok resp => constructor <;> simp [scanFolder, hid, hscan]
  · intro env url tags maxImages fid e h1 h2
    simp [scanFolder, h1, h2]

/-- Witness for C5: a listing fetch that throws `"boom"` becomes a
failure outcome carrying `"boom"`. -/
theorem scanFolder_exception_boundary_witness :
    extractFolderId "https://drive.google.com/drive/folders/1ABC" = some "1ABC" ∧
    scanGoogleDriveFolder envBoom "1ABC" = .error "boom" ∧
    scanFolder envBoom "https://drive.google.com/drive/folders/1ABC" ["png"] 10 =
      { success := false
        images := []
        error := some "boom"
        totalFound := 0
        folderName := none } :=
  ⟨by decide, rfl,
    scanFolder_exception_boundary.2 envBoom "https://drive.google.com/drive/folders/1ABC"
      ["png"] 10 "1ABC" "boom" (by decide) rfl⟩

/-- Claim C1: for every folder listing and every `maxImages`, a
successful scan returns as `images` exactly the first
`min(totalFound, maxImages)` records of the filtered listing in listing
order (so `images.length ≤ maxImages` and
`images.length = min totalFound maxImages`), and `totalFound` is the
number of filtered matches before truncation. -/
theorem scanFolder_truncation (env : DriveEnv) (url : String)
    (tags : List String) (maxImages : Nat) (fid : String) (resp : DriveApiResponse)
    (h1 : extractFolderId url = some fid)
    (h2 : scanGoogleDriveFolder env fid = .ok resp) :
    (scanFolder env url tags maxImages).success = true ∧
    (scanFolder env url tags maxImages).images =
      (filterImageFiles resp.files tags).take maxImages ∧
    (scanFolder env url tags maxImages).images =
      (filterImageFiles resp.files tags).take
        (min (filterImageFiles resp.files tags).length maxImages) ∧
    (scanFolder env url tags maxImages).totalFound =
      (filterImageFiles resp.files tags).length ∧
    (scanFolder env url tags maxImages).images.length =
      min (scanFolder env url tags maxImages).totalFound maxImages ∧
    (scanFolder env url tags maxImages).images.length ≤ maxImages := by
  have htake : (filterImageFiles resp.files tags).take
      (min (filterImageFiles resp.files tags).length maxImages) =
      (filterImageFiles resp.files tags).take maxImages := by
    rw [min_comm, ← List.take_take, List.take_length]
  refine ⟨?_, ?_, ?_, ?_, ?_, ?_⟩ <;>
    simp [scanFolder, h1, h2, htake, List.length_take, min_comm]

/-- Witness for C1: a listing of two PNGs and a text file, tag `png`,
`maxImages = 1`: one image returned, `totalFound = 2`. -/
theorem scanFolder_truncation_witness :
    extractFolderId "https://drive.example.com/drive/folders/1ABC" = some "1ABC" ∧
    scanGoogleDriveFolder envA "1ABC" = .ok respA ∧
    ((scanFolder envA "https://drive.example.com/drive/folders/1ABC" ["png"] 1).success = true ∧
    (scanFolder envA "https://drive.example.com/drive/folders/1ABC" ["png"] 1).images =
      (filterImageFiles respA.files ["png"]).take 1 ∧
    (scanFolder envA "https://drive.example.com/drive/folders/1ABC" ["png"] 1).images =
      (filterImageFiles respA.files ["png"]).take
        (min (filterImageFiles respA.files ["png"]).length 1) ∧
    (scanFolder envA "https://drive.example.com/drive/folders/1ABC" ["png"] 1).totalFound =
      (filterImageFiles respA.files ["png"]).length ∧
    (scanFolder envA "https://drive.example.com/drive/folders/1ABC" ["png"] 1).images.length =
      min (scanFolder envA "https://drive.example.com/drive/folders/1ABC" ["png"] 1).totalFound 1 ∧
    (scanFolder envA "https://drive.example.com/drive/folders/1ABC" ["png"] 1).images.length ≤ 1) :=
  ⟨by decide, rfl,
    scanFolder_truncation envA "https://drive.example.com/drive/folders/1ABC"
      ["png"] 1 "1ABC" respA (by decide) rfl⟩

theorem downloadOk_iff (env : ImportEnv) (f : DriveFile) :
    downloadOk env f = true ↔ ∃ d, downloadFile env f = .ok d := by
  unfold downloadOk
  cases h : downloadFile env f <;> simp [h]

theorem mkGridNode_source (s : ImportOptions) (image : DriveFile) (data : Nat)
    (x y : ℚ) : nodeSource (mkGridNode s image data x y) = some image := by
  unfold mkGridNode
  by_cases hc : s.createComponents = true <;> simp [hc, nodeSource]

theorem mkGridNode_pos (s : ImportOptions) (image : DriveFile) (data : Nat)
    (x y : ℚ) : nodePos (mkGridNode s image data x y) = (x, y) := by
  unfold mkGridNode
  by_cases hc : s.createComponents = true <;> simp [hc, nodePos]

theorem figmaStep_err (env : ImportEnv) (s : ImportOptions) (i : Nat)
    (image : DriveFile) (st : LoopState) (e : String)
    (h : downloadFile env image = .error e) :
    figmaStep env s i image st = st := by
  simp [figmaStep, h]

theorem figmaStep_ok_nodes (env : ImportEnv) (s : ImportOptions) (i : Nat)
    (image : DriveFile) (st : LoopState) (d : Nat)
    (h : downloadFile env image = .ok d) :
    (figmaStep env s i image st).nodes =
      st.nodes ++ [mkGridNode s image d st.currentX st.currentY] := by
  simp only [figmaStep, h]
  split <;> rfl

/-- Claim C10: for every import variant, importing an empty record list
returns `success = true`, `importedCount = 0` and an empty node list,
and neither the selection nor the scroll-into-view (nor, for Slides,
the grid-view) operation of the canvas sink is invoked. -/
theorem import_empty_list (env : ImportEnv) (options : ImportOptions) :
    importToFigma env [] options =
      ({ success := true, importedCount := 0, error := none, nodes := [] },
       { children := [], selection := none, scrolledTo := none, slidesViewGrid := false }) ∧
    importToFigJam env [] =
      ({ success := true, importedCount := 0, error := none, nodes := [] },
       { children := [], selection := none, scrolledTo := none, slidesViewGrid := false }) ∧
    importToSlides env [] =
      ({ success := true, importedCount := 0, error := none, nodes := [] },
       { children := [], selection := none, scrolledTo := none, slidesViewGrid := false }) := by
  refine ⟨rfl, ?_, rfl⟩
  show (let st := figjamLoop env [] { nodes := [], currentX := 0, currentY := 0 }; _) = _
  simp [figjamLoop, importToFigJam]

/-- Claim C2: in the grid-canvas import of three records where the 2nd
record's fetch fails and the 1st and 3rd succeed, the outcome has
`success = true`, `importedCount = 2`, and the node list consists of
exactly the nodes created for the 1st and 3rd records, in their
original relative order; the per-item failure does not abort the batch. -/
theorem importToFigma_partial_failure (env : ImportEnv) (s : ImportOptions)
    (r1 r2 r3 : DriveFile) (d1 d3 : Nat) (e : String)
    (h1 : downloadFile env r1 = .ok d1)
    (h2 : downloadFile env r2 = .error e)
    (h3 : downloadFile env r3 = .ok d3) :
    (importToFigma env [r1, r2, r3] s).1.success = true ∧
    (importToFigma env [r1, r2, r3] s).1.importedCount = 2 ∧
    (importToFigma env [r1, r2, r3] s).1.nodes.length = 2 ∧
    (importToFigma env [r1, r2, r3] s).1.nodes.map nodeSource = [some r1, some r3] := by
  have init : LoopState := { nodes := [], currentX := 0, currentY := 0 }
  have hloop : (figmaLoop env s 0 [r1, r2, r3]
      { nodes := [], currentX := 0, currentY := 0 }).nodes.map nodeSource =
      [some r1, some r3] ∧
      (figmaLoop env s 0 [r1, r2, r3]
      { nodes := [], currentX := 0, currentY := 0 }).nodes.length = 2 := by
    simp only [figmaLoop]
    rw [figmaStep_err env s 1 r2 _ e h2]
    have e1 := figmaStep_ok_nodes env s 0 r1
      { nodes := [], currentX := 0, currentY := 0 } d1 h1
    have e3 := figmaStep_ok_nodes env s 2 r3
      (figmaStep env s 0 r1 { nodes := [], currentX := 0, currentY := 0 }) d3 h3
    rw [e3, e1]
    simp [mkGridNode_source]
  refine ⟨rfl, ?_, ?_, ?_⟩ <;> simp only [importToFigma] <;>
    simp [hloop.1, hloop.2]

/-- Witness for C2 at concrete records: downloads for `u1`, `u3`
succeed, `u2` fails. -/
theorem importToFigma_partial_failure_witness :
    downloadFile (envImport "u2") (testFile 1) = .ok 7 ∧
    downloadFile (envImport "u2") (testFile 2) = .error "Download failed: 404 Not Found" ∧
    downloadFile (envImport "u2") (testFile 3) = .ok 7 ∧
    ((importToFigma (envImport "u2") [testFile 1, testFile 2, testFile 3]
        DEFAULT_IMPORT_SETTINGS).1.success = true ∧
     (importToFigma (envImport "u2") [testFile 1, testFile 2, testFile 3]
        DEFAULT_IMPORT_SETTINGS).1.importedCount = 2 ∧
     (importToFigma (envImport "u2") [testFile 1, testFile 2, testFile 3]
        DEFAULT_IMPORT_SETTINGS).1.nodes.length = 2 ∧
     (importToFigma (envImport "u2") [testFile 1, testFile 2, testFile 3]
        DEFAULT_IMPORT_SETTINGS).1.nodes.map nodeSource =
       [some (testFile 1), some (testFile 3)]) :=
  ⟨rfl, rfl, rfl,
    importToFigma_partial_failure (envImport "u2") DEFAULT_IMPORT_SETTINGS
      (testFile 1) (testFile 2) (testFile 3) 7 7 "Download failed: 404 Not Found"
      rfl rfl rfl⟩

theorem figjamStep_ok_nodes (env : ImportEnv) (image : DriveFile)
    (st : LoopState) (d : Nat) (h : downloadFile env image = .ok d) :
    (figjamStep env image st).nodes =
      st.nodes ++
        [Node.sticky image st.currentX st.currentY image.name,
         Node.rect { source := image, imageHash := d, x := st.currentX,
                     y := st.currentY - 170, w := 150, h := 150,
                     scaleMode := .FIT, name := image.name ++ " (Image)" }] := by
  simp only [figjamStep, h]
  split <;> rfl

theorem figjamLoop_len (env : ImportEnv) :
    ∀ (imgs : List DriveFile) (st : LoopState),
      (figjamLoop env imgs st).nodes.length =
        st.nodes.length + 2 * (imgs.filter (downloadOk env)).length := by
  intro imgs
  induction imgs with
  | nil => intro st; simp [figjamLoop]
  | cons img rest ih =>
    intro st
    simp only [figjamLoop]
    rw [ih]
    cases h : downloadFile env img with
    | error e =>
      have hst : figjamStep env img st = st := by simp [figjamStep, h]
      have hok : downloadOk env img = false := by simp [downloadOk, h]
      rw [hst]
      simp [List.filter_cons, hok]
    | ok d =>
      have hok : downloadOk env img = true := by simp [downloadOk, h]
      rw [figjamStep_ok_nodes env img st d h]
      simp [List.filter_cons, hok]
      omega

/-- Claim C9: in the card-canvas import every successfully imported
record appends exactly two nodes — a sticky note carrying the record's
display name, then its 150x150 image rectangle placed 170px above —
and the reported `importedCount` equals half the node-list length (the
number of successful downloads); in particular a card import of two
records that both succeed yields `importedCount = 2` and a node list of
length 4. -/
theorem importToFigJam_pairs :
    (∀ (env : ImportEnv) (image : DriveFile) (st : LoopState) (d : Nat),
      downloadFile env image = .ok d →
      (figjamStep env image st).nodes =
        st.nodes ++
          [Node.sticky image st.currentX st.currentY image.name,
           Node.rect { source := image, imageHash := d, x := st.currentX,
                       y := st.currentY - 170, w := 150, h := 150,
                       scaleMode := .FIT, name := image.name ++ " (Image)" }]) ∧
    (∀ (env : ImportEnv) (images : List DriveFile),
      (importToFigJam env images).1.nodes.length =
        2 * (images.filter (downloadOk env)).length ∧
      (importToFigJam env images).1.importedCount =
        (images.filter (downloadOk env)).length) ∧
    (∀ (env : ImportEnv) (r1 r2 : DriveFile) (d1 d2 : Nat),
      downloadFile env r1 = .ok d1 → downloadFile env r2 = .ok d2 →
      (importToFigJam env [r1, r2]).1.importedCount = 2 ∧
      (importToFigJam env [r1, r2]).1.nodes.length = 4) := by
  have hlen : ∀ (env : ImportEnv) (images : List DriveFile),
      (importToFigJam env images).1.nodes.length =
        2 * (images.filter (downloadOk env)).length := by
    intro env images
    show (figjamLoop env images { nodes := [], currentX := 0, currentY := 0 }).nodes.length = _
    rw [figjamLoop_len]
    simp
  have hcount : ∀ (env : ImportEnv) (images : List DriveFile),
      (importToFigJam env images).1.importedCount =
        (images.filter (downloadOk env)).length := by
    intro env images
    show (figjamLoop env images { nodes := [], currentX := 0, currentY := 0 }).nodes.length / 2 = _
    have := hlen env images
    simp only [importToFigJam] at this
    rw [this]
    omega
  refine ⟨figjamStep_ok_nodes, fun env images => ⟨hlen env images, hcount env images⟩,
    fun env r1 r2 d1 d2 h1 h2 => ?_⟩
  have hok1 : downloadOk env r1 = true := by simp [downloadOk, h1]
  have hok2 : downloadOk env r2 = true := by simp [downloadOk, h2]
  have hf : ([r1, r2].filter (downloadOk env)).length = 2 := by
    simp [List.filter_cons, hok1, hok2]
  exact ⟨by rw [hcount env [r1, r2], hf], by rw [hlen env [r1, r2], hf]⟩

/-- Witness for C9: two concrete records whose downloads succeed give
`importedCount = 2` and four nodes. -/
theorem importToFigJam_pairs_witness :
    downloadFile envImportOk (testFile 1) = .ok 7 ∧
    downloadFile envImportOk (testFile 2) = .ok 7 ∧
    (importToFigJam envImportOk [testFile 1, testFile 2]).1.importedCount = 2 ∧
    (importToFigJam envImportOk [testFile 1, testFile 2]).1.nodes.length = 4 :=
  ⟨rfl, rfl,
    (importToFigJam_pairs.2.2 envImportOk (testFile 1) (testFile 2) 7 7 rfl rfl).1,
    (importToFigJam_pairs.2.2 envImportOk (testFile 1) (testFile 2) 7 7 rfl rfl).2⟩

theorem grid_succ_mod_div (r k : Nat) (hr : 0 < r) :
    ((k + 1) % r = 0 → (k + 1) / r = k / r + 1) ∧
    ((k + 1) % r ≠ 0 → (k + 1) % r = k % r + 1 ∧ (k + 1) / r = k / r) := by
  constructor
  · intro h
    exact Nat.succ_div_of_dvd (Nat.dvd_of_mod_eq_zero h)
  · intro h
    have hnd : ¬ r ∣ k + 1 := fun hd => h (Nat.mod_eq_zero_of_dvd hd)
    have hdiv : (k + 1) / r = k / r := Nat.succ_div_of_not_dvd hnd
    have e1 := Nat.div_add_mod (k + 1) r
    have e2 := Nat.div_add_mod k r
    have hlt2 : k % r < r := Nat.mod_lt _ hr
    rw [hdiv] at e1
    exact ⟨by omega, hdiv⟩

theorem figmaStep_ok_currentX (env : ImportEnv) (s : ImportOptions) (hr : 0 < s.imagesPerRow)
    (k : Nat) (image : DriveFile) (st : LoopState) (d : Nat)
    (hd : downloadFile env image = .ok d)
    (hx : st.currentX = ((k % s.imagesPerRow : Nat) : ℚ) * (s.imageSize + s.spacing)) :
    (figmaStep env s k image st).currentX =
      (((k + 1) % s.imagesPerRow : Nat) : ℚ) * (s.imageSize + s.spacing) := by
  by_cases hc : (k + 1) % s.imagesPerRow = 0
  · simp only [figmaStep, hd, if_pos hc]
    rw [hc]
    simp
  · simp only [figmaStep, hd, if_neg hc]
    rw [hx, ((grid_succ_mod_div s.imagesPerRow k hr).2 hc).1]
    push_cast
    ring

theorem figmaStep_ok_currentY (env : ImportEnv) (s : ImportOptions) (hr : 0 < s.imagesPerRow)
    (k : Nat) (image : DriveFile) (st : LoopState) (d : Nat)
    (hd : downloadFile env image = .ok d)
    (hy : st.currentY = ((k / s.imagesPerRow : Nat) : ℚ) * (s.imageSize + s.spacing)) :
    (figmaStep env s k image st).currentY =
      (((k + 1) / s.imagesPerRow : Nat) : ℚ) * (s.imageSize + s.spacing) := by
  by_cases hc : (k + 1) % s.imagesPerRow = 0
  · simp only [figmaStep, hd, if_pos hc]
    rw [hy, (grid_succ_mod_div s.imagesPerRow k hr).1 hc]
    push_cast
    ring
  · simp only [figmaStep, hd, if_neg hc]
    rw [hy, ((grid_succ_mod_div s.imagesPerRow k hr).2 hc).2]

theorem figmaLoop_grid_positions (env : ImportEnv) (s : ImportOptions)
    (hr : 0 < s.imagesPerRow) :
    ∀ (imgs : List DriveFile) (k : Nat) (st : LoopState),
      (∀ f ∈ imgs, downloadOk env f = true) →
      st.currentX = ((k % s.imagesPerRow : Nat) : ℚ) * (s.imageSize + s.spacing) →
      st.currentY = ((k / s.imagesPerRow : Nat) : ℚ) * (s.imageSize + s.spacing) →
      (figmaLoop env s k imgs st).nodes.map nodePos =
          st.nodes.map nodePos ++ (List.range' k imgs.length).map (fun i =>
            (((i % s.imagesPerRow : Nat) : ℚ) * (s.imageSize + s.spacing),
             ((i / s.imagesPerRow : Nat) : ℚ) * (s.imageSize + s.spacing))) ∧
      (figmaLoop env s k imgs st).nodes.map nodeSource =
          st.nodes.map nodeSource ++ imgs.map some := by
  intro imgs
  induction imgs with
  | nil =>
    intro k st hall hx hy
    constructor <;> simp [figmaLoop]
  | cons img rest ih =>
    intro k st hall hx hy
    obtain ⟨d, hd⟩ := (downloadOk_iff env img).1 (hall img (by simp))
    have hnodes := figmaStep_ok_nodes env s k img st d hd
    have hx' := figmaStep_ok_currentX env s hr k img st d hd hx
    have hy' := figmaStep_ok_currentY env s hr k img st d hd hy
    have hrest := ih (k + 1) (figmaStep env s k img st)
      (fun f hf => hall f (by simp [hf])) hx' hy'
    constructor
    · simp only [figmaLoop]
      rw [hrest.1, hnodes]
      simp only [List.length_cons, List.range'_succ, List.map_cons, List.map_append,
        mkGridNode_pos, List.map_cons]
      rw [hx, hy]
      simp
    · simp only [figmaLoop]
      rw [hrest.2, hnodes]
      simp [mkGridNode_source]

/-- Claim C7 (amended): in the grid-canvas import, when every record's
fetch succeeds (so every earlier placement succeeded) and
`imagesPerRow` is positive, the item at index `i` is positioned at
`x = (i mod imagesPerRow) * (imageSize + spacing)` and
`y = (i div imagesPerRow) * (imageSize + spacing)`, and the `i`-th node
is the one created for the `i`-th record.  The unamended claim — the
formula for every successfully placed item even in runs with earlier
per-item failures — is refuted by `gridLayout_claim_counterexample`:
the position cursor only advances on success while the row-wrap test
uses the loop index, so a failed item shifts every later item. -/
theorem importToFigma_grid_layout (env : ImportEnv) (s : ImportOptions)
    (images : List DriveFile)
    (hr : 0 < s.imagesPerRow)
    (hall : ∀ f ∈ images, downloadOk env f = true) :
    (importToFigma env images s).1.nodes.map nodePos =
      (List.range images.length).map (fun i =>
        (((i % s.imagesPerRow : Nat) : ℚ) * (s.imageSize + s.spacing),
         ((i / s.imagesPerRow : Nat) : ℚ) * (s.imageSize + s.spacing))) ∧
    (importToFigma env images s).1.nodes.map nodeSource = images.map some := by
  have h := figmaLoop_grid_positions env s hr images 0
    { nodes := [], currentX := 0, currentY := 0 } hall (by simp) (by simp)
  constructor
  · show (figmaLoop env s 0 images { nodes := [], currentX := 0, currentY := 0 }).nodes.map nodePos = _
    rw [h.1, List.range_eq_range']
    simp
  · show (figmaLoop env s 0 images { nodes := [], currentX := 0, currentY := 0 }).nodes.map nodeSource = _
    rw [h.2]
    simp

/-- Claim C7 counterexample: with default settings
(`imagesPerRow = 3`, `imageSize = 200`, `spacing = 20`) and two records
whose first download fails and second succeeds, the successfully placed
record at index 1 sits at `(0, 0)`, not at the claimed
`((1 mod 3) * 220, (1 div 3) * 220) = (220, 0)` — so the claim as
stated (the formula for every successfully placed index, over all runs)
is false on this input. -/
theorem gridLayout_claim_counterexample :
    (importToFigma (envImport "u1") [testFile 1, testFile 2]
        DEFAULT_IMPORT_SETTINGS).1.nodes =
      [mkGridNode DEFAULT_IMPORT_SETTINGS (testFile 2) 7 0 0] ∧
    ¬ (∀ n ∈ (importToFigma (envImport "u1") [testFile 1, testFile 2]
          DEFAULT_IMPORT_SETTINGS).1.nodes,
        nodeSource n = some (testFile 2) →
        nodePos n = (((1 % DEFAULT_IMPORT_SETTINGS.imagesPerRow : Nat) : ℚ) *
            (DEFAULT_IMPORT_SETTINGS.imageSize + DEFAULT_IMPORT_SETTINGS.spacing),
          ((1 / DEFAULT_IMPORT_SETTINGS.imagesPerRow : Nat) : ℚ) *
            (DEFAULT_IMPORT_SETTINGS.imageSize + DEFAULT_IMPORT_SETTINGS.spacing))) := by
  have hnodes : (importToFigma (envImport "u1") [testFile 1, testFile 2]
      DEFAULT_IMPORT_SETTINGS).1.nodes =
      [mkGridNode DEFAULT_IMPORT_SETTINGS (testFile 2) 7 0 0] := by
    show (figmaLoop (envImport "u1") DEFAULT_IMPORT_SETTINGS 0 [testFile 1, testFile 2]
      { nodes := [], currentX := 0, currentY := 0 }).nodes = _
    simp only [figmaLoop]
    rw [figmaStep_err (envImport "u1") DEFAULT_IMPORT_SETTINGS 0 (testFile 1)
      { nodes := [], currentX := 0, currentY := 0 } "Download failed: 404 Not Found" rfl]
    rw [figmaStep_ok_nodes (envImport "u1") DEFAULT_IMPORT_SETTINGS 1 (testFile 2)
      { nodes := [], currentX := 0, currentY := 0 } 7 rfl]
    rfl
  refine ⟨hnodes, fun hcl => ?_⟩
  have hmem : mkGridNode DEFAULT_IMPORT_SETTINGS (testFile 2) 7 0 0 ∈
      (importToFigma (envImport "u1") [testFile 1, testFile 2]
        DEFAULT_IMPORT_SETTINGS).1.nodes := by
    rw [hnodes]
    exact List.mem_singleton.2 rfl
  have hpos := hcl _ hmem (mkGridNode_source _ _ _ _ _)
  rw [mkGridNode_pos] at hpos
  have h0 : (0 : ℚ) = ((1 % DEFAULT_IMPORT_SETTINGS.imagesPerRow : Nat) : ℚ) *
      (DEFAULT_IMPORT_SETTINGS.imageSize + DEFAULT_IMPORT_SETTINGS.spacing) :=
    congrArg Prod.fst hpos
  rw [show DEFAULT_IMPORT_SETTINGS.imagesPerRow = 3 from rfl,
    show DEFAULT_IMPORT_SETTINGS.imageSize = 200 from rfl,
    show DEFAULT_IMPORT_SETTINGS.spacing = 20 from rfl] at h0
  norm_num at h0

/-- Witness for the amended C7: four records that all download, default
settings; index 3 starts a new row at `(0, 220)`. -/
theorem importToFigma_grid_layout_witness :
    0 < DEFAULT_IMPORT_SETTINGS.imagesPerRow ∧
    (∀ f ∈ [testFile 1, testFile 2, testFile 3, testFile 4],
      downloadOk envImportOk f = true) ∧
    ((importToFigma envImportOk [testFile 1, testFile 2, testFile 3, testFile 4]
        DEFAULT_IMPORT_SETTINGS).1.nodes.map nodePos =
      (List.range [testFile 1, testFile 2, testFile 3, testFile 4].length).map (fun i =>
        (((i % DEFAULT_IMPORT_SETTINGS.imagesPerRow : Nat) : ℚ) *
            (DEFAULT_IMPORT_SETTINGS.imageSize + DEFAULT_IMPORT_SETTINGS.spacing),
         ((i / DEFAULT_IMPORT_SETTINGS.imagesPerRow : Nat) : ℚ) *
            (DEFAULT_IMPORT_SETTINGS.imageSize + DEFAULT_IMPORT_SETTINGS.spacing))) ∧
     (importToFigma envImportOk [testFile 1, testFile 2, testFile 3, testFile 4]
        DEFAULT_IMPORT_SETTINGS).1.nodes.map nodeSource =
       [testFile 1, testFile 2, testFile 3, testFile 4].map some) :=
  ⟨by decide, by decide,
    importToFigma_grid_layout envImportOk DEFAULT_IMPORT_SETTINGS
      [testFile 1, testFile 2, testFile 3, testFile 4] (by decide) (by decide)⟩

/-- Witness for C3 at a concrete supported URL shape. -/
theorem extractFolderId_spec_witness :
    extractFolderId "https://drive.google.com/folders/1A2b-c_3" = some "1A2b-c_3" :=
  extractFolderId_spec.2.2.1

/-- Witness for C6 at a concrete MIME-only record. -/
theorem filterImageFiles_spec_witness :
    filterImageFiles [mimeOnlyFile] ["png"] = [mimeOnlyFile] :=
  filterImageFiles_spec.2.2.2.1

/-- Witness for C10 at a concrete environment and the default settings. -/
theorem import_empty_list_witness :
    importToFigma envImportOk [] DEFAULT_IMPORT_SETTINGS =
      ({ success := true, importedCount := 0, error := none, nodes := [] },
       { children := [], selection := none, scrolledTo := none, slidesViewGrid := false }) :=
  (import_empty_list envImportOk DEFAULT_IMPORT_SETTINGS).1
